import Mathlib

/-!
# VabGen-Rx — verification of the orchestration / caching / merge core

A shallow embedding, in Lean 4, of the core of the VabGen-Rx repository:

* `services/cache_service.py` — the Azure SQL cache store (`AzureSQLCacheService`):
  drug-drug lookup/save with normalized pair keys, TTL enforced at read time,
  silent degradation when the store is unavailable, and the append-only
  analysis log.
* `services/db_connection.py` — the thread-local connection pool
  (`get_connection`).
* `services/dosing_service.py` — `DosingService.get_dosing_recommendation`
  (the never-cached compute path).
* `services/vabgenrx_agent.py` — `_BaseAgent._run`, the module-level result
  collectors, and `VabGenRxOrchestrator.analyze` (phase structure and merge).

Python dicts whose unread keys do not influence the embedded code are
modelled as structures carrying the fields the code reads plus an opaque
remainder; wall-clock time is modelled as a day count (`Nat`), matching the
`DATEDIFF(day, …)` granularity used by the SQL queries; `json.dumps` /
`json.loads` round-trips on payloads are modelled as the identity on a
structured payload value.  Database errors and store unavailability are
modelled by explicit boolean parameters (`available`, `dbOk`): `dbOk = false`
means the `try:` body of the corresponding Python method raised, which the
source catches (`except Exception`) and turns into a miss / no-op.
-/

namespace VabGenRx

/-! ## Cache store payloads and rows (`services/cache_service.py`) -/

/-- The structured result dict stored in the drug-drug cache.  The cache
code reads `severity`, `confidence`, `pubmed_papers`, `fda_reports` (to fill
the side columns) and serializes the whole dict into `full_result`; every
other key is opaque to the cache and is modelled by `body`.  `confidence`
is a float in the source and is never computed with here, so it is carried
as an opaque string representation. -/
structure DDPayload where
  severity : Option String
  confidence : String
  pubmed_papers : Nat
  fda_reports : Nat
  body : String
deriving DecidableEq

/-- One row of the `interaction_cache` table.  `cached_at` and
`last_accessed` are day counts (the queries only ever compare times with
`DATEDIFF(day, cached_at, GETDATE())`). -/
structure InteractionRow where
  drug1 : String
  drug2 : String
  interaction_type : String
  severity : Option String
  confidence : String
  pubmed_papers : Nat
  fda_reports : Nat
  full_result : DDPayload
  cached_at : Nat
  access_count : Nat
  last_accessed : Nat
deriving DecidableEq

/-- One row of the append-only `analysis_log` table
(`AzureSQLCacheService.log_analysis`). -/
structure LogRow where
  session_id : String
  medications : String
  diseases : String
  risk_level : String
  severe_ddi : Nat
  moderate_ddi : Nat
  total_papers : Nat
deriving DecidableEq

/-- The database state the embedded cache operations act on: the
`interaction_cache` table and the `analysis_log` table. -/
structure CacheState where
  interaction_cache : List InteractionRow
  analysis_log : List LogRow
deriving DecidableEq

/-- Python's `str.lower()`: lower-case every character.  (Stated over the
string's character list so that the kernel can evaluate it on concrete
inputs; extensionally this is `String.toLower`.) -/
def lowerStr (s : String) : String :=
  ⟨s.data.map Char.toLower⟩

/-- `d1, d2 = sorted([drug1.lower(), drug2.lower()])` — the canonical
(case-folded, sorted) order a drug pair is normalized to before every
read and write of the drug-drug cache. -/
def normPair (drug1 drug2 : String) : String × String :=
  if lowerStr drug2 < lowerStr drug1 then (lowerStr drug2, lowerStr drug1)
  else (lowerStr drug1, lowerStr drug2)

/-- Key match for an `interaction_cache` row: `drug1 = ? AND drug2 = ?`. -/
def keyMatch (d1 d2 : String) (r : InteractionRow) : Bool :=
  r.drug1 == d1 && r.drug2 == d2

/-- The `WHERE` clause of the drug-drug cache `SELECT`: key match plus
`DATEDIFF(day, cached_at, GETDATE()) < CACHE_TTL_DAYS`. -/
def hitMatch (d1 d2 : String) (now ttl : Nat) (r : InteractionRow) : Bool :=
  keyMatch d1 d2 r && decide (now - r.cached_at < ttl)

/-- The `UPDATE interaction_cache SET access_count = access_count + 1,
last_accessed = GETDATE() WHERE drug1 = ? AND drug2 = ?` a hit performs. -/
def touchRow (d1 d2 : String) (now : Nat) (r : InteractionRow) : InteractionRow :=
  if keyMatch d1 d2 r then
    { r with access_count := r.access_count + 1, last_accessed := now }
  else r

/-- `AzureSQLCacheService.get_drug_drug` (cache_service.py:62-91).
Returns the looked-up payload (`None` = miss) and the resulting table
state.  `available = false` is the constructor-probe failure
(`if not self.available: return None`); `dbOk = false` means the `try:`
body raised and the broad `except` returned `None` with no state change. -/
def get_drug_drug (available dbOk : Bool) (now ttl : Nat) (s : CacheState)
    (drug1 drug2 : String) : Option DDPayload × CacheState :=
  if !available then (none, s)
  else if !dbOk then (none, s)
  else
    let p := normPair drug1 drug2
    match s.interaction_cache.find? (hitMatch p.1 p.2 now ttl) with
    | some row =>
        (some row.full_result,
         { s with interaction_cache := s.interaction_cache.map (touchRow p.1 p.2 now) })
    | none => (none, s)

/-- The `WHEN MATCHED THEN UPDATE` branch of the `MERGE` in
`save_drug_drug`: replace the payload and side columns, reset `cached_at`. -/
def upsertRow (d1 d2 : String) (now : Nat) (p : DDPayload) (r : InteractionRow) :
    InteractionRow :=
  if keyMatch d1 d2 r then
    { r with full_result := p, severity := p.severity, confidence := p.confidence,
             pubmed_papers := p.pubmed_papers, fda_reports := p.fda_reports,
             cached_at := now }
  else r

/-- The `WHEN NOT MATCHED THEN INSERT` branch of the `MERGE` in
`save_drug_drug`.  `cached_at`, `access_count` and `last_accessed` are not
listed in the `INSERT` column list and take the table defaults
(insertion time and zero). -/
def insertRow (d1 d2 : String) (now : Nat) (p : DDPayload) : InteractionRow :=
  { drug1 := d1, drug2 := d2, interaction_type := "drug_drug",
    severity := p.severity, confidence := p.confidence,
    pubmed_papers := p.pubmed_papers, fda_reports := p.fda_reports,
    full_result := p, cached_at := now, access_count := 0, last_accessed := now }

/-- `AzureSQLCacheService.save_drug_drug` (cache_service.py:93-132): an
upsert (SQL `MERGE` on the normalized pair key).  Unavailable store or a
raised-and-caught database error leave the state unchanged. -/
def save_drug_drug (available dbOk : Bool) (now : Nat) (s : CacheState)
    (drug1 drug2 : String) (p : DDPayload) : CacheState :=
  if !available then s
  else if !dbOk then s
  else
    let pr := normPair drug1 drug2
    if s.interaction_cache.any (keyMatch pr.1 pr.2) then
      { s with interaction_cache := s.interaction_cache.map (upsertRow pr.1 pr.2 now p) }
    else
      { s with interaction_cache := s.interaction_cache ++ [insertRow pr.1 pr.2 now p] }

/-! ## Orchestrator result arrays (`services/vabgenrx_agent.py`)

The worker agents return JSON dicts.  The orchestrator and the analysis
log read only a handful of keys from each entry; those keys become fields,
and all unread keys of an entry are folded into an opaque `rest` string. -/

/-- One entry of a worker's `drug_drug` array.  The orchestrator reads
`severity` (`r.get("severity")`), the log reads `pubmed_papers`. -/
structure DDEntry where
  drug1 : String
  drug2 : String
  severity : Option String
  pubmed_papers : Nat
  rest : String
deriving DecidableEq

/-- One entry of a worker's `drug_disease` array.  The orchestrator reads
the truthiness of `r.get("contraindicated")`, the log reads `pubmed_count`. -/
structure DiseaseEntry where
  drug : String
  disease : String
  contraindicated : Bool
  pubmed_count : Nat
  rest : String
deriving DecidableEq

/-- One entry of a worker's `drug_food` array; the log reads `pubmed_count`. -/
structure FoodEntry where
  drug : String
  pubmed_count : Nat
  rest : String
deriving DecidableEq

/-- One entry of a drug- or condition-counseling array (opaque to the
merge; only carried through). -/
structure CounselEntry where
  subject : String
  rest : String
deriving DecidableEq

/-- One entry of a `dosing_recommendations` array.  The orchestrator reads
the truthiness of `r.get("adjustment_required")`. -/
structure DosingEntry where
  drug : String
  adjustment_required : Bool
  rest : String
deriving DecidableEq

/-- `sum(1 for r in ddi if r.get('severity') == 'severe')`. -/
def countSevere (l : List DDEntry) : Nat :=
  (l.filter (fun r => r.severity == some "severe")).length

/-- `sum(1 for r in ddi if r.get('severity') == 'moderate')`. -/
def countModerate (l : List DDEntry) : Nat :=
  (l.filter (fun r => r.severity == some "moderate")).length

/-- `sum(1 for r in all_dd if r.get("contraindicated"))`. -/
def countContra (l : List DiseaseEntry) : Nat :=
  (l.filter (fun r => r.contraindicated)).length

/-- `sum(1 for r in final["dosing_recommendations"] if r.get("adjustment_required"))`. -/
def countAdjust (l : List DosingEntry) : Nat :=
  (l.filter (fun r => r.adjustment_required)).length

/-! ## Analysis log (`AzureSQLCacheService.log_analysis`, cache_service.py:284-314) -/

/-- The merged analysis dict passed to `log_analysis` (and produced by
`VabGenRxOrchestrator.analyze`): the `final` dict of the orchestrator. -/
structure RiskSummary where
  level : String
  severe_count : Nat
  moderate_count : Nat
  contraindicated_count : Nat
  dosing_adjustments_required : Nat
deriving DecidableEq

/-- The orchestrator's merged `final` dict (`vabgenrx_agent.py:1705-1754`). -/
structure FinalAnalysis where
  drug_drug : List DDEntry
  drug_disease : List DiseaseEntry
  drug_food : List FoodEntry
  drug_counseling : List CounselEntry
  condition_counseling : List CounselEntry
  dosing_recommendations : List DosingEntry
  risk_summary : RiskSummary
deriving DecidableEq

/-- The risk level `log_analysis` computes for the log row:
`'HIGH' if severe > 0 else 'MODERATE' if moderate > 0 else 'LOW'`, where
`severe` and `moderate` are counted over `results.get('drug_drug', [])`
alone — drug-disease entries play no part. -/
def logRisk (results : FinalAnalysis) : String :=
  let severe := countSevere results.drug_drug
  let moderate := countModerate results.drug_drug
  if severe > 0 then "HIGH" else if moderate > 0 then "MODERATE" else "LOW"

/-- `', '.join` of a string list. -/
def joinComma : List String → String
  | [] => ""
  | [x] => x
  | x :: xs => x ++ ", " ++ joinComma xs

/-- `AzureSQLCacheService.log_analysis` (cache_service.py:284-314): appends
one row to `analysis_log`; unavailable store or a caught database error
leave the state unchanged. -/
def log_analysis (available dbOk : Bool) (s : CacheState) (session_id : String)
    (medications diseases : List String) (results : FinalAnalysis) : CacheState :=
  if !available then s
  else if !dbOk then s
  else
    let ddi := results.drug_drug
    let severe := countSevere ddi
    let moderate := countModerate ddi
    let food_papers := (results.drug_food.map (fun r => r.pubmed_count)).sum
    let ddi_papers := (ddi.map (fun r => r.pubmed_papers)).sum
    let dis_papers := (results.drug_disease.map (fun r => r.pubmed_count)).sum
    let risk := logRisk results
    { s with analysis_log := s.analysis_log ++
        [{ session_id := session_id,
           medications := joinComma medications,
           diseases := if diseases.isEmpty then "" else joinComma diseases,
           risk_level := risk,
           severe_ddi := severe,
           moderate_ddi := moderate,
           total_papers := ddi_papers + dis_papers + food_papers }] }

/-! ## Worker results and module-level result collectors -/

/-- A worker's self-reported aggregate / summary keys: any keys of its JSON
dict beyond the arrays the orchestrator reads.  The merge never reads
them; they are carried to state that fact as a theorem. -/
def SelfReported := List (String × Nat)

/-- `VabGenRxSafetyAgent`'s parsed JSON result: the orchestrator reads
`safety_result.get("drug_drug", [])` and `safety_result.get("drug_food", [])`. -/
structure SafetyResult where
  drug_drug : List DDEntry
  drug_food : List FoodEntry
  self_reported : SelfReported

/-- `VabGenRxDiseaseAgent`'s parsed JSON result. -/
structure DiseaseResult where
  drug_disease : List DiseaseEntry
  self_reported : SelfReported

/-- `VabGenRxCounselingAgent`'s parsed JSON result. -/
structure CounselingResult where
  drug_counseling : List CounselEntry
  condition_counseling : List CounselEntry
  dosing_recommendations : List DosingEntry
  self_reported : SelfReported

/-- The empty dict `{}` `_BaseAgent._run` returns on a failed run:
every `.get(key, [])` read of it yields `[]`. -/
def emptySafety : SafetyResult := ⟨[], [], []⟩

def emptyDisease : DiseaseResult := ⟨[], []⟩

def emptyCounseling : CounselingResult := ⟨[], [], [], []⟩

/-- A module-level result collector (`_dosing_results`,
`_drug_counseling_results`, `_condition_counseling_results`): a Python dict
keyed by lower-cased identifier.  Lookup order inside the list is
irrelevant to the merge (which iterates over the scope, not the
collector), so the dict is modelled as an association list with
overwrite-on-record semantics. -/
abbrev Collector (α : Type) := List (String × α)

/-- `collector[key] = result` — dict assignment (overwrites any previous
binding of the key). -/
def collRecord {α : Type} (c : Collector α) (key : String) (v : α) : Collector α :=
  (List.filter (fun p => !(p.1 == key)) c) ++ [(key, v)]

/-- `collector[key]` after an `if key in collector` guard — dict lookup. -/
def collLookup {α : Type} (c : Collector α) (key : String) : Option α :=
  (List.find? (fun p => p.1 == key) c).map (fun p => p.2)

/-- `if collector:` — dict truthiness. -/
def collNonempty {α : Type} (c : Collector α) : Bool :=
  !(List.isEmpty c)

/-- The orchestrator's per-array merge
(`vabgenrx_agent.py:1726-1747`, one of the three identical blocks):
```
final[arr] = (
    [collector[d.lower()] for d in scope if d.lower() in collector]
    if collector
    else worker_array
)
```
When the collector dict is non-empty the merged array is its entries for
the scope identifiers (in scope order, skipping identifiers the collector
lacks); only a completely empty collector falls back to the worker's
self-assembled array. -/
def collectMerge {α : Type} (coll : Collector α) (scope : List String)
    (workerArray : List α) : List α :=
  if collNonempty coll then
    scope.filterMap (fun d => collLookup coll (lowerStr d))
  else workerArray

/-! ## Orchestrator merge (`VabGenRxOrchestrator.analyze`, vabgenrx_agent.py:1696-1766) -/

/-- The merge step of `VabGenRxOrchestrator.analyze`: builds the `final`
dict from the three workers' parsed results and the three module-level
collectors.  Faithful to the source: `drug_drug` / `drug_disease` /
`drug_food` are taken verbatim from the Phase-1 workers; the three
counseling/dosing arrays go through `collectMerge`; every aggregate is
recomputed from these arrays; the dosing-adjustment count is computed from
the *merged* dosing array (line 1750-1754). -/
def mergeResults (medications diseases : List String)
    (safety : SafetyResult) (disease : DiseaseResult)
    (counseling : CounselingResult)
    (drugColl condColl : Collector CounselEntry)
    (dosingColl : Collector DosingEntry) : FinalAnalysis :=
  let all_ddi := safety.drug_drug
  let all_dd := disease.drug_disease
  let severe_count := countSevere all_ddi
  let mod_count := countModerate all_ddi
  let contra_count := countContra all_dd
  let drug_counseling := collectMerge drugColl medications counseling.drug_counseling
  let condition_counseling := collectMerge condColl diseases counseling.condition_counseling
  let dosing := collectMerge dosingColl medications counseling.dosing_recommendations
  let dosing_adjustments := countAdjust dosing
  { drug_drug := all_ddi,
    drug_disease := all_dd,
    drug_food := safety.drug_food,
    drug_counseling := drug_counseling,
    condition_counseling := condition_counseling,
    dosing_recommendations := dosing,
    risk_summary :=
      { level :=
          if severe_count > 0 || contra_count > 0 then "HIGH"
          else if mod_count > 0 then "MODERATE"
          else "LOW",
        severe_count := severe_count,
        moderate_count := mod_count,
        contraindicated_count := contra_count,
        dosing_adjustments_required := dosing_adjustments } }

/-! ## Agent run execution (`_BaseAgent._run`, vabgenrx_agent.py:1186-1237)

`_run` creates an Azure agent, processes a run, and parses the JSON of the
assistant's reply.  Its body is a `try/finally` (the `finally` only deletes
the agent): an exception from `create_agent` or
`create_thread_and_process_run` propagates to the caller; a run that
finishes with a non-`COMPLETED` status, or whose reply cannot be parsed,
yields the empty dict `{}`.  The interaction with the remote service is
modelled as an outcome oracle. -/

/-- The observable outcome of one `_run` call against the remote agent
service, for an agent whose parsed JSON dict has type `α`:
`raiseAtCreate` — `client.create_agent` raised; `raiseInRun` —
`create_thread_and_process_run` (or message fetch inside the `try`) raised;
`terminal completed parsed` — the run reached a terminal status
(`completed = true` iff `run.status == RunStatus.COMPLETED`), with
`parsed` the assistant JSON when the status was `COMPLETED` and a `{…}`
block parsed (`none` when parsing failed or no assistant text contained
`'{'`). -/
inductive AgentRunOutcome (α : Type) where
  | raiseAtCreate (msg : String)
  | raiseInRun (msg : String)
  | terminal (completed : Bool) (parsed : Option α)

/-- `_BaseAgent._run`: returns the parsed dict, the empty dict on a
non-completed run or parse failure, and lets service exceptions escape
(there is no `except` clause — only `finally`).  `empty` is the empty dict
`{}` for the agent's result type. -/
def runAgent {α : Type} (empty : α) (o : AgentRunOutcome α) : Except String α :=
  match o with
  | .raiseAtCreate m => .error m
  | .raiseInRun m => .error m
  | .terminal completed parsed =>
      if completed then .ok (parsed.getD empty) else .ok empty

/-- `VabGenRxOrchestrator.analyze` (vabgenrx_agent.py:1555-1766), at the
level of worker execution and merge.  Phase 1 submits the safety and
disease workers to a `ThreadPoolExecutor` and collects both with
`future.result()` inside `as_completed` — `future.result()` re-raises any
exception the worker raised, and the surrounding `with` block has no
`except`, so such an exception propagates out of `analyze`; the relative
completion order of the two Phase-1 workers does not affect which values
are bound.  Phase 2 then runs the counseling worker.  The collector
arguments are the states of the three module-level collector dicts after
Phase 2 (they are cleared at the start of `analyze` and written only by
the counseling tools). -/
def analyze (medications diseases : List String)
    (safetyO : AgentRunOutcome SafetyResult)
    (diseaseO : AgentRunOutcome DiseaseResult)
    (counselO : AgentRunOutcome CounselingResult)
    (drugColl condColl : Collector CounselEntry)
    (dosingColl : Collector DosingEntry) : Except String FinalAnalysis := do
  let safety ← runAgent emptySafety safetyO
  let disease ← runAgent emptyDisease diseaseO
  let counseling ← runAgent emptyCounseling counselO
  .ok (mergeResults medications diseases safety disease counseling
        drugColl condColl dosingColl)

/-! ## Resource handle pool (`services/db_connection.py`) -/

/-- The thread-local connection registry `_thread_local` together with a
supply of fresh connection objects.  Threads and handles are identified by
naturals: `conns t` is thread `t`'s private `_thread_local.connection`
(`none` when the thread has not connected yet or its connection was
invalidated); `counter` generates the identity of the next `pyodbc.connect`
result, so distinct physical connections get distinct handles. -/
structure PoolState where
  counter : Nat
  conns : Nat → Option Nat

/-- `pyodbc.connect(_conn_str, timeout=10)` followed by
`_thread_local.connection = …` for the calling thread: a fresh handle,
recorded under the calling thread only. -/
def allocConn (tid : Nat) (s : PoolState) : Nat × PoolState :=
  (s.counter,
   { counter := s.counter + 1,
     conns := fun t => if t = tid then some s.counter else s.conns t })

/-- `get_connection` (db_connection.py:33-52): reads the calling thread's
thread-local slot; if a connection exists it is liveness-probed with
`SELECT 1` (`alive`), and reused on success; a failed probe is caught
(`except: _thread_local.connection = None`) and a fresh connection is
created, stored and returned — the probe failure never reaches the
caller. -/
def get_connection (alive : Nat → Bool) (tid : Nat) (s : PoolState) :
    Nat × PoolState :=
  match s.conns tid with
  | some h => if alive h then (h, s) else allocConn tid s
  | none => allocConn tid s

/-- Pool invariant: every stored handle was allocated (is below the
counter) and no handle is stored under two threads. -/
def PoolInv (s : PoolState) : Prop :=
  (∀ t h, s.conns t = some h → h < s.counter) ∧
  (∀ t₁ t₂ h, s.conns t₁ = some h → s.conns t₂ = some h → t₁ = t₂)

/-! ## Dosing service (`services/dosing_service.py`) -/

/-- The sections of the FDA dosing label
(`FDAService().get_dosing_label(drug)`); a section is `none` when absent
and may also be the empty string (both are falsy to `bool(...)`). -/
structure FdaDosingLabel where
  boxed_warning : Option String
  dosage_and_administration : Option String
  use_in_specific_populations : Option String
  clinical_pharmacology : Option String
  warnings_and_precautions : Option String
  contraindications : Option String
  warnings : Option String

/-- Python truthiness of an optional string: `bool(None) = bool('') = False`. -/
def truthy : Option String → Bool
  | some s => !(s == "")
  | none => false

/-- The evidence-tier block `DosingService._get_evidence_tier` attaches. -/
structure EvidenceTier where
  tier : Nat
  tier_name : String
  confidence : String
deriving DecidableEq

/-- `DosingService._get_evidence_tier` (dosing_service.py:110-153): counts
the truthy label sections among the four scored ones. -/
def evidenceTier (l : FdaDosingLabel) : EvidenceTier :=
  let score := (truthy l.dosage_and_administration).toNat
             + (truthy l.use_in_specific_populations).toNat
             + (truthy l.clinical_pharmacology).toNat
             + (truthy l.boxed_warning).toNat
  if score ≥ 3 then ⟨1, "HIGH — Full FDA Label", "90–98%"⟩
  else if score == 2 then ⟨2, "MEDIUM — Partial FDA Label", "80–90%"⟩
  else if score == 1 then ⟨3, "LOW — Basic FDA Label", "70–80%"⟩
  else ⟨4, "AI KNOWLEDGE — No FDA Label Found", "60–75%"⟩

/-- The dosing-recommendation dict.  The LLM's JSON may carry any values
(including a `from_cache` key); the service overwrites
`evidence_tier_info` and `from_cache` after the call.  Unread keys are
folded into `rest`. -/
structure DosingOutput where
  drug : String
  recommended_dose : String
  adjustment_required : Bool
  evidence_tier_info : Option EvidenceTier
  from_cache : Bool
  rest : String
deriving DecidableEq

/-- The default dict `_call_llm` returns when the LLM call raises
(dosing_service.py:337-355). -/
def llmFallback (e : String) : DosingOutput :=
  { drug := "", recommended_dose := "Consult pharmacist",
    adjustment_required := false, evidence_tier_info := none,
    from_cache := false, rest := e }

/-- The externally observable effects `get_dosing_recommendation` can
perform, as a trace: the FDA label fetch, the LLM inference call, and —
never emitted by this code path — cache reads and writes. -/
inductive DosingEffect where
  | fdaDosingLabelFetch (drug : String)
  | llmInference
  | cacheRead (key : String)
  | cacheWrite (key : String)
deriving DecidableEq

/-- `DosingService.get_dosing_recommendation` (dosing_service.py:157-281):
fetches the FDA dosing label, computes the evidence tier, builds the
prompt, calls the LLM (`_call_llm` catches LLM errors and substitutes the
fallback dict), then sets `evidence_tier_info` and `from_cache = False` on
the result.  `patient_context` stands for the formatted patient data
(`_build_patient_context` is pure string formatting).  The returned trace
lists the external calls the method performed, in order. -/
def dosing_get_recommendation (fetchLabel : String → FdaDosingLabel)
    (llm : String → Except String DosingOutput)
    (drug : String) (patient_context : String) :
    DosingOutput × List DosingEffect :=
  let label := fetchLabel drug
  let tier := evidenceTier label
  let prompt := tier.tier_name ++ "\n" ++ patient_context ++ "\n" ++ drug
  let r := match llm prompt with
    | .ok d => d
    | .error e => llmFallback e
  ({ r with evidence_tier_info := some tier, from_cache := false },
   [DosingEffect.fdaDosingLabelFetch drug, DosingEffect.llmInference])

/-- The agent tool `get_dosing_recommendation`
(vabgenrx_agent.py:1125-1153): calls the service and records the full
result in the module-level `_dosing_results` collector under the
lower-cased drug name.  No cache operation occurs here either. -/
def dosing_tool (fetchLabel : String → FdaDosingLabel)
    (llm : String → Except String DosingOutput)
    (drug : String) (patient_context : String)
    (dosingResults : Collector DosingOutput) :
    (DosingOutput × Collector DosingOutput) × List DosingEffect :=
  let r := dosing_get_recommendation fetchLabel llm drug patient_context
  ((r.1, collRecord dosingResults (lowerStr drug) r.1), r.2)

/-! ## Phase structure of an orchestration run (vabgenrx_agent.py:1632-1694)

Phase 1 submits the safety and disease workers to a two-thread
`ThreadPoolExecutor` and leaves the `with` block only after `as_completed`
has yielded (and `future.result()` has collected) both futures; the
counseling worker is invoked after that block.  The observable execution
is therefore: an arbitrary interleaving of the two Phase-1 workers' event
sequences — each ending in that worker reaching a terminal state —
followed by the whole counseling sequence. -/

/-- The three worker roles. -/
inductive Role where
  | safety
  | disease
  | counseling
deriving DecidableEq

/-- One observable event of a worker: an internal operation (cache or
collaborator call, numbered by the worker), or the worker reaching a
terminal state. -/
inductive AgentEvent where
  | op (r : Role) (k : Nat)
  | done (r : Role)
deriving DecidableEq

/-- The role an event belongs to. -/
def AgentEvent.role : AgentEvent → Role
  | .op r _ => r
  | .done r => r

/-- `Interleave l₁ l₂ l`: `l` is an interleaving of `l₁` and `l₂`
(each list's relative order preserved, elements arbitrarily merged) — the
possible observation orders of two concurrently running threads. -/
inductive Interleave {α : Type} : List α → List α → List α → Prop where
  | nil : Interleave [] [] []
  | left {l₁ l₂ l : List α} (a : α) :
      Interleave l₁ l₂ l → Interleave (a :: l₁) l₂ (a :: l)
  | right {l₁ l₂ l : List α} (b : α) :
      Interleave l₁ l₂ l → Interleave l₁ (b :: l₂) (b :: l)

/-- The safety worker's event sequence: its internal operations, then its
terminal state. -/
def safetySeq (xs : List Nat) : List AgentEvent :=
  xs.map (AgentEvent.op .safety) ++ [AgentEvent.done .safety]

/-- The disease worker's event sequence. -/
def diseaseSeq (ys : List Nat) : List AgentEvent :=
  ys.map (AgentEvent.op .disease) ++ [AgentEvent.done .disease]

/-- The counseling worker's event sequence. -/
def counselingSeq (cs : List Nat) : List AgentEvent :=
  cs.map (AgentEvent.op .counseling) ++ [AgentEvent.done .counseling]

/-- A full orchestration-run trace: some interleaving `t` of the two
Phase-1 sequences, then the Phase-2 counseling sequence. -/
def orchTrace (t : List AgentEvent) (cs : List Nat) : List AgentEvent :=
  t ++ counselingSeq cs

/-! ## Concrete instances used by counterexamples and witnesses -/

/-- A full collected dosing entry for drug `A` (collector side). -/
def dosingEntryA : DosingEntry :=
  ⟨"A", true, "full collected dosing entry for drug A"⟩

/-- A worker self-assembled dosing entry for drug `B` — present in the
counseling worker's own `dosing_recommendations` array but never written
to the collector. -/
def dosingEntryB : DosingEntry :=
  ⟨"B", true, "worker self-assembled dosing entry for drug B"⟩

/-- A counseling worker result whose self-assembled dosing array covers
drug `B` only. -/
def counselingWorkerB : CounselingResult := ⟨[], [], [dosingEntryB], []⟩

/-- A dosing collector holding an entry for drug `a` only (keys are
lower-cased identifiers). -/
def dosingCollA : Collector DosingEntry := [("a", dosingEntryA)]

/-- A concrete interleaving of the two Phase-1 worker sequences
`safetySeq [0]` and `diseaseSeq [0]`: the two workers' operations overlap
and the disease worker finishes first. -/
def phase1TraceEx : List AgentEvent :=
  [AgentEvent.op .safety 0, AgentEvent.op .disease 0,
   AgentEvent.done .disease, AgentEvent.done .safety]

/-! ## Helper lemmas -/

/-- Pair normalization is symmetric in its two arguments: `sorted` of a
two-element list does not depend on the order the elements were given in. -/
theorem normPair_comm (a b : String) : normPair a b = normPair b a := by
  unfold normPair
  split_ifs with h1 h2 h2
  · exact absurd h2 (asymm h1)
  · rfl
  · rfl
  · rw [le_antisymm (le_of_not_lt h1) (le_of_not_lt h2)]

/-- Touching a row (hit-side `UPDATE`) does not change its key. -/
theorem touchRow_key (a b : String) (now : Nat) (r : InteractionRow) :
    (touchRow a b now r).drug1 = r.drug1 ∧ (touchRow a b now r).drug2 = r.drug2 := by
  unfold touchRow
  split <;> exact ⟨rfl, rfl⟩

/-- Upserting a row (`MERGE … WHEN MATCHED`) does not change its key. -/
theorem upsertRow_key (a b : String) (now : Nat) (p : DDPayload) (r : InteractionRow) :
    (upsertRow a b now p r).drug1 = r.drug1 ∧ (upsertRow a b now p r).drug2 = r.drug2 := by
  unfold upsertRow
  split <;> exact ⟨rfl, rfl⟩

/-- After a successful `save_drug_drug`, every row matching the normalized
key holds exactly the saved payload with freshness reset to the write
time. -/
theorem save_keyMatch_fields (now : Nat) (s : CacheState) (A B : String)
    (X : DDPayload) :
    ∀ r ∈ (save_drug_drug true true now s A B X).interaction_cache,
      keyMatch (normPair A B).1 (normPair A B).2 r = true →
      r.full_result = X ∧ r.cached_at = now := by
  intro r hr hk
  simp only [save_drug_drug, Bool.not_true, Bool.false_eq_true, if_false] at hr
  by_cases hany : s.interaction_cache.any (keyMatch (normPair A B).1 (normPair A B).2) = true
  · rw [if_pos hany] at hr
    obtain ⟨r₀, hr₀, rfl⟩ := List.mem_map.1 hr
    by_cases hk₀ : keyMatch (normPair A B).1 (normPair A B).2 r₀ = true
    · simp [upsertRow, hk₀]
    · rw [show upsertRow (normPair A B).1 (normPair A B).2 now X r₀ = r₀ from by
        simp [upsertRow, hk₀]] at hk
      exact absurd hk hk₀
  · rw [if_neg hany] at hr
    rcases List.mem_append.1 hr with hmem | hmem
    · exact absurd (List.any_eq_true.2 ⟨r, hmem, hk⟩) hany
    · rw [List.mem_singleton.1 hmem]
      exact ⟨rfl, rfl⟩

/-- After a successful `save_drug_drug`, some row with the normalized key
is physically present. -/
theorem save_exists_keyMatch (now : Nat) (s : CacheState) (A B : String)
    (X : DDPayload) :
    ∃ r ∈ (save_drug_drug true true now s A B X).interaction_cache,
      keyMatch (normPair A B).1 (normPair A B).2 r = true := by
  simp only [save_drug_drug, Bool.not_true, Bool.false_eq_true, if_false]
  by_cases hany : s.interaction_cache.any (keyMatch (normPair A B).1 (normPair A B).2) = true
  · rw [if_pos hany]
    obtain ⟨r₀, hr₀, hk₀⟩ := List.any_eq_true.1 hany
    refine ⟨upsertRow (normPair A B).1 (normPair A B).2 now X r₀,
      List.mem_map.2 ⟨r₀, hr₀, rfl⟩, ?_⟩
    have hkeys := upsertRow_key (normPair A B).1 (normPair A B).2 now X r₀
    simp only [keyMatch, hkeys.1, hkeys.2] at hk₀ ⊢
    exact hk₀
  · rw [if_neg hany]
    refine ⟨insertRow (normPair A B).1 (normPair A B).2 now X,
      List.mem_append_right _ (List.mem_singleton.2 rfl), ?_⟩
    simp [keyMatch, insertRow]

/-- A live-hit match implies a key match. -/
theorem keyMatch_of_hitMatch {d1 d2 : String} {now ttl : Nat}
    {r : InteractionRow} (h : hitMatch d1 d2 now ttl r = true) :
    keyMatch d1 d2 r = true := by
  simp only [hitMatch, Bool.and_eq_true] at h
  exact h.1

/-- A `get_drug_drug` read of any fresh-enough record with the normalized
key returns the payload that `save_drug_drug` last wrote for that key. -/
theorem get_after_save (s : CacheState) (A B C D : String) (X : DDPayload)
    (T now ttl : Nat) (hnorm : normPair C D = normPair A B)
    (hage : now - T < ttl) :
    (get_drug_drug true true now ttl (save_drug_drug true true T s A B X) C D).1
      = some X := by
  obtain ⟨r₀, hr₀, hk₀⟩ := save_exists_keyMatch T s A B X
  have hfields₀ := save_keyMatch_fields T s A B X r₀ hr₀ hk₀
  have hhit₀ : hitMatch (normPair A B).1 (normPair A B).2 now ttl r₀ = true := by
    simp only [hitMatch, Bool.and_eq_true, decide_eq_true_eq]
    exact ⟨hk₀, by rw [hfields₀.2]; exact hage⟩
  have hsome : ((save_drug_drug true true T s A B X).interaction_cache.find?
      (hitMatch (normPair A B).1 (normPair A B).2 now ttl)).isSome :=
    List.find?_isSome.2 ⟨r₀, hr₀, hhit₀⟩
  obtain ⟨r₁, hr₁⟩ := Option.isSome_iff_exists.1 hsome
  have hk₁ : keyMatch (normPair A B).1 (normPair A B).2 r₁ = true :=
    keyMatch_of_hitMatch (List.find?_some hr₁)
  have hfull : r₁.full_result = X :=
    (save_keyMatch_fields T s A B X r₁ (List.mem_of_find?_eq_some hr₁) hk₁).1
  simp only [get_drug_drug, Bool.not_true, Bool.false_eq_true, if_false, hnorm]
  rw [hr₁]
  simp [hfull]

/-! ## Claim theorems -/

/-- C3.  Every aggregate in the final `risk_summary` is recomputed from
the corresponding merged output array (`severe_count` / `moderate_count`
from the merged `drug_drug` array, `contraindicated_count` from the merged
`drug_disease` array, `dosing_adjustments_required` from the merged
`dosing_recommendations` array), the risk level is `"HIGH"` iff
`severe_count > 0` or `contraindicated_count > 0`, else `"MODERATE"` iff
`moderate_count > 0`, else `"LOW"`, and no worker-reported aggregate field
is ever used: replacing every worker's self-reported summary fields leaves
the merged result unchanged. -/
theorem claim_C3 (meds dis : List String) (safety : SafetyResult)
    (disease : DiseaseResult) (counseling : CounselingResult)
    (drugColl condColl : Collector CounselEntry)
    (dosingColl : Collector DosingEntry) (sr1 sr2 sr3 : SelfReported) :
    (mergeResults meds dis safety disease counseling drugColl condColl
        dosingColl).risk_summary.severe_count =
      countSevere (mergeResults meds dis safety disease counseling drugColl
        condColl dosingColl).drug_drug ∧
    (mergeResults meds dis safety disease counseling drugColl condColl
        dosingColl).risk_summary.moderate_count =
      countModerate (mergeResults meds dis safety disease counseling drugColl
        condColl dosingColl).drug_drug ∧
    (mergeResults meds dis safety disease counseling drugColl condColl
        dosingColl).risk_summary.contraindicated_count =
      countContra (mergeResults meds dis safety disease counseling drugColl
        condColl dosingColl).drug_disease ∧
    (mergeResults meds dis safety disease counseling drugColl condColl
        dosingColl).risk_summary.dosing_adjustments_required =
      countAdjust (mergeResults meds dis safety disease counseling drugColl
        condColl dosingColl).dosing_recommendations ∧
    (mergeResults meds dis safety disease counseling drugColl condColl
        dosingColl).risk_summary.level =
      (if (mergeResults meds dis safety disease counseling drugColl condColl
            dosingColl).risk_summary.severe_count > 0
          || (mergeResults meds dis safety disease counseling drugColl condColl
            dosingColl).risk_summary.contraindicated_count > 0 then "HIGH"
       else if (mergeResults meds dis safety disease counseling drugColl condColl
            dosingColl).risk_summary.moderate_count > 0 then "MODERATE"
       else "LOW") ∧
    mergeResults meds dis { safety with self_reported := sr1 }
        { disease with self_reported := sr2 }
        { counseling with self_reported := sr3 } drugColl condColl dosingColl =
      mergeResults meds dis safety disease counseling drugColl condColl
        dosingColl :=
  ⟨rfl, rfl, rfl, rfl, rfl, rfl⟩

/-- C6.  Cache unavailability degrades silently: when the construction
probe failed (`available = false`) or the individual operation's database
access raised (`dbOk = false`, caught by the operation's broad `except`),
every lookup returns a definite miss (`none`) with the store unchanged and
every store or log call is a no-op; by construction of these embedded
operations (each wraps its fallible body and returns the degraded default)
no cache operation propagates an error to its caller. -/
theorem claim_C6 (dbOk : Bool) (now ttl : Nat) (s : CacheState) (A B : String)
    (X : DDPayload) (sid : String) (meds dis : List String)
    (res : FinalAnalysis) :
    get_drug_drug false dbOk now ttl s A B = (none, s) ∧
    save_drug_drug false dbOk now s A B X = s ∧
    log_analysis false dbOk s sid meds dis res = s ∧
    get_drug_drug true false now ttl s A B = (none, s) ∧
    save_drug_drug true false now s A B X = s ∧
    log_analysis true false s sid meds dis res = s :=
  ⟨rfl, rfl, rfl, rfl, rfl, rfl⟩

/-- C7.  Never-cache invariant for dosing: every call to
`get_dosing_recommendation` performs the full compute path — the FDA label
fetch followed by the LLM inference call, and nothing else: in particular
no cache read and no cache write — and the returned result has
`from_cache = False`, for every drug, every patient context, every FDA
label content and every LLM behavior (including an LLM reply that claims
`from_cache = True`, and an LLM failure); the same holds through the agent
tool wrapper, which only additionally records the result in the run-scoped
collector. -/
theorem claim_C7 (fetchLabel : String → FdaDosingLabel)
    (llm : String → Except String DosingOutput) (drug patient_context : String)
    (coll : Collector DosingOutput) :
    (dosing_get_recommendation fetchLabel llm drug patient_context).1.from_cache
        = false ∧
    (dosing_get_recommendation fetchLabel llm drug patient_context).2 =
        [DosingEffect.fdaDosingLabelFetch drug, DosingEffect.llmInference] ∧
    (∀ k, DosingEffect.cacheRead k ∉
        (dosing_get_recommendation fetchLabel llm drug patient_context).2 ∧
      DosingEffect.cacheWrite k ∉
        (dosing_get_recommendation fetchLabel llm drug patient_context).2) ∧
    (dosing_tool fetchLabel llm drug patient_context coll).1.1.from_cache
        = false ∧
    (dosing_tool fetchLabel llm drug patient_context coll).2 =
        [DosingEffect.fdaDosingLabelFetch drug, DosingEffect.llmInference] := by
  refine ⟨rfl, rfl, ?_, rfl, rfl⟩
  intro k
  constructor <;> simp [dosing_get_recommendation]

/-- C4.  Pair-key symmetry: for all drug name strings `A` and `B`, a
drug-drug cache lookup gives the same answer (value and state effect) for
`(A,B)` and `(B,A)`, and a `store(A,B,X)` followed by `lookup(B,A)` at the
same time (store available, operations error-free, positive TTL) returns
`X`, because the store normalizes the pair to canonical sorted,
case-folded order before every read and write. -/
theorem claim_C4 (now ttl : Nat) (s : CacheState) (A B : String)
    (avail dbOk : Bool) (X : DDPayload) (httl : 0 < ttl) :
    get_drug_drug avail dbOk now ttl s A B =
      get_drug_drug avail dbOk now ttl s B A ∧
    (get_drug_drug true true now ttl (save_drug_drug true true now s A B X)
        B A).1 = some X := by
  constructor
  · unfold get_drug_drug
    rw [normPair_comm]
  · exact get_after_save s A B B A X now now ttl (normPair_comm B A) (by omega)

/-- Witness for C4 at concrete inputs: an empty store, `ttl = 30`,
the pair stored as `("Warfarin", "aspirin")` and read back as
`("aspirin", "Warfarin")`. -/
theorem claim_C4_witness :
    get_drug_drug true true 5 30 ⟨[], []⟩ "Warfarin" "aspirin" =
      get_drug_drug true true 5 30 ⟨[], []⟩ "aspirin" "Warfarin" ∧
    (get_drug_drug true true 5 30
        (save_drug_drug true true 5 ⟨[], []⟩ "Warfarin" "aspirin"
          ⟨some "severe", "0.9", 3, 12, "bleeding risk"⟩)
        "aspirin" "Warfarin").1 =
      some ⟨some "severe", "0.9", 3, 12, "bleeding risk"⟩ :=
  claim_C4 5 30 ⟨[], []⟩ "Warfarin" "aspirin" true true
    ⟨some "severe", "0.9", 3, 12, "bleeding risk"⟩ (by decide)

/-- C5.  TTL is enforced at read time only: a record written at time `T`
is a hit at age `TTL − 1` and a definite miss at age `TTL + 1`, even
though the record is still physically present after the missing lookup;
and no drug-drug cache operation (lookup or store, available or not,
erroring or not) ever deletes a record — every previously present row's
key survives every operation. -/
theorem claim_C5 (T ttl : Nat) (s : CacheState) (A B : String) (X : DDPayload)
    (httl : 0 < ttl) :
    (get_drug_drug true true (T + ttl - 1) ttl
        (save_drug_drug true true T s A B X) A B).1 = some X ∧
    (get_drug_drug true true (T + ttl + 1) ttl
        (save_drug_drug true true T s A B X) A B).1 = none ∧
    (∃ r ∈ ((get_drug_drug true true (T + ttl + 1) ttl
        (save_drug_drug true true T s A B X) A B).2).interaction_cache,
      keyMatch (normPair A B).1 (normPair A B).2 r = true) ∧
    (∀ (s₀ : CacheState) (A₀ B₀ : String) (now₀ ttl₀ : Nat)
        (avail dbOk : Bool) (Y : DDPayload) (r₀ : InteractionRow),
      r₀ ∈ s₀.interaction_cache →
      (∃ r₁ ∈ ((get_drug_drug avail dbOk now₀ ttl₀ s₀ A₀ B₀).2).interaction_cache,
          r₁.drug1 = r₀.drug1 ∧ r₁.drug2 = r₀.drug2) ∧
      (∃ r₁ ∈ (save_drug_drug avail dbOk now₀ s₀ A₀ B₀ Y).interaction_cache,
          r₁.drug1 = r₀.drug1 ∧ r₁.drug2 = r₀.drug2)) := by
  have hnone : (save_drug_drug true true T s A B X).interaction_cache.find?
      (hitMatch (normPair A B).1 (normPair A B).2 (T + ttl + 1) ttl) = none := by
    rw [List.find?_eq_none]
    intro r hr hhit
    have hk := keyMatch_of_hitMatch hhit
    have hf := save_keyMatch_fields T s A B X r hr hk
    simp only [hitMatch, Bool.and_eq_true, decide_eq_true_eq] at hhit
    rw [hf.2] at hhit
    omega
  refine ⟨?_, ?_, ?_, ?_⟩
  · exact get_after_save s A B A B X T (T + ttl - 1) ttl rfl (by omega)
  · simp only [get_drug_drug, Bool.not_true, Bool.false_eq_true, if_false]
    rw [hnone]
  · have hstate : (get_drug_drug true true (T + ttl + 1) ttl
        (save_drug_drug true true T s A B X) A B).2 =
        save_drug_drug true true T s A B X := by
      simp only [get_drug_drug, Bool.not_true, Bool.false_eq_true, if_false]
      rw [hnone]
    rw [hstate]
    exact save_exists_keyMatch T s A B X
  · intro s₀ A₀ B₀ now₀ ttl₀ avail dbOk Y r₀ hr₀
    constructor
    · cases avail with
      | false => exact ⟨r₀, hr₀, rfl, rfl⟩
      | true =>
        cases dbOk with
        | false => exact ⟨r₀, hr₀, rfl, rfl⟩
        | true =>
          simp only [get_drug_drug, Bool.not_true, Bool.false_eq_true, if_false]
          cases hfind : s₀.interaction_cache.find?
              (hitMatch (normPair A₀ B₀).1 (normPair A₀ B₀).2 now₀ ttl₀) with
          | none =>
            exact ⟨r₀, hr₀, rfl, rfl⟩
          | some row =>
            exact ⟨touchRow (normPair A₀ B₀).1 (normPair A₀ B₀).2 now₀ r₀,
              List.mem_map.2 ⟨r₀, hr₀, rfl⟩,
              (touchRow_key _ _ now₀ r₀).1, (touchRow_key _ _ now₀ r₀).2⟩
    · cases avail with
      | false => exact ⟨r₀, hr₀, rfl, rfl⟩
      | true =>
        cases dbOk with
        | false => exact ⟨r₀, hr₀, rfl, rfl⟩
        | true =>
          simp only [save_drug_drug, Bool.not_true, Bool.false_eq_true, if_false]
          by_cases hany : s₀.interaction_cache.any
              (keyMatch (normPair A₀ B₀).1 (normPair A₀ B₀).2) = true
          · rw [if_pos hany]
            exact ⟨upsertRow (normPair A₀ B₀).1 (normPair A₀ B₀).2 now₀ Y r₀,
              List.mem_map.2 ⟨r₀, hr₀, rfl⟩,
              (upsertRow_key _ _ now₀ Y r₀).1, (upsertRow_key _ _ now₀ Y r₀).2⟩
          · rw [if_neg hany]
            exact ⟨r₀, List.mem_append_left _ hr₀, rfl, rfl⟩

/-- Witness for C5 at concrete inputs: `T = 10`, `ttl = 30`; the record
written at 10 is a hit at time 39 (age 29) and a miss at time 41 (age 31)
while remaining physically present. -/
theorem claim_C5_witness :
    (get_drug_drug true true 39 30
        (save_drug_drug true true 10 ⟨[], []⟩ "ibuprofen" "lisinopril"
          ⟨some "moderate", "0.8", 2, 4, "renal risk"⟩) "ibuprofen"
        "lisinopril").1 = some ⟨some "moderate", "0.8", 2, 4, "renal risk"⟩ ∧
    (get_drug_drug true true 41 30
        (save_drug_drug true true 10 ⟨[], []⟩ "ibuprofen" "lisinopril"
          ⟨some "moderate", "0.8", 2, 4, "renal risk"⟩) "ibuprofen"
        "lisinopril").1 = none ∧
    (∃ r ∈ ((get_drug_drug true true 41 30
        (save_drug_drug true true 10 ⟨[], []⟩ "ibuprofen" "lisinopril"
          ⟨some "moderate", "0.8", 2, 4, "renal risk"⟩) "ibuprofen"
        "lisinopril").2).interaction_cache,
      keyMatch (normPair "ibuprofen" "lisinopril").1
        (normPair "ibuprofen" "lisinopril").2 r = true) ∧
    (∀ (s₀ : CacheState) (A₀ B₀ : String) (now₀ ttl₀ : Nat)
        (avail dbOk : Bool) (Y : DDPayload) (r₀ : InteractionRow),
      r₀ ∈ s₀.interaction_cache →
      (∃ r₁ ∈ ((get_drug_drug avail dbOk now₀ ttl₀ s₀ A₀ B₀).2).interaction_cache,
          r₁.drug1 = r₀.drug1 ∧ r₁.drug2 = r₀.drug2) ∧
      (∃ r₁ ∈ (save_drug_drug avail dbOk now₀ s₀ A₀ B₀ Y).interaction_cache,
          r₁.drug1 = r₀.drug1 ∧ r₁.drug2 = r₀.drug2)) :=
  claim_C5 10 30 ⟨[], []⟩ "ibuprofen" "lisinopril"
    ⟨some "moderate", "0.8", 2, 4, "renal risk"⟩ (by decide)

/-- C10.  The risk level written to the append-only analysis log is
computed only from drug-drug severities (any two result sets with the same
`drug_drug` array log the same risk), and a session whose merged
`AnalysisResult` risk is `"HIGH"` solely because of contraindications
(no severe and no moderate drug-drug entries, at least one contraindicated
drug-disease entry) is logged with risk `"LOW"`: every row the log call
appends carries `risk_level = "LOW"`. -/
theorem claim_C10 (meds dis : List String) (safety : SafetyResult)
    (disease : DiseaseResult) (counseling : CounselingResult)
    (drugColl condColl : Collector CounselEntry)
    (dosingColl : Collector DosingEntry) (s : CacheState) (sid : String)
    (lm ld : List String)
    (hs : countSevere safety.drug_drug = 0)
    (hm : countModerate safety.drug_drug = 0)
    (hc : 0 < countContra disease.drug_disease) :
    (∀ g₁ g₂ : FinalAnalysis, g₁.drug_drug = g₂.drug_drug →
      logRisk g₁ = logRisk g₂) ∧
    (mergeResults meds dis safety disease counseling drugColl condColl
        dosingColl).risk_summary.level = "HIGH" ∧
    logRisk (mergeResults meds dis safety disease counseling drugColl condColl
        dosingColl) = "LOW" ∧
    (∀ row ∈ (log_analysis true true s sid lm ld
        (mergeResults meds dis safety disease counseling drugColl condColl
          dosingColl)).analysis_log,
      row ∈ s.analysis_log ∨ row.risk_level = "LOW") := by
  have hlow : logRisk (mergeResults meds dis safety disease counseling drugColl
      condColl dosingColl) = "LOW" := by
    simp [logRisk, mergeResults, hs, hm]
  refine ⟨?_, ?_, hlow, ?_⟩
  · intro g₁ g₂ h
    simp [logRisk, h]
  · simp [mergeResults, hs, hc]
  · intro row hrow
    simp only [log_analysis, Bool.not_true, Bool.false_eq_true, if_false] at hrow
    rcases List.mem_append.1 hrow with hmem | hmem
    · exact Or.inl hmem
    · right
      rw [List.mem_singleton.1 hmem]
      exact hlow

/-- Witness for C10 at concrete inputs: no drug-drug findings, one
contraindicated drug-disease pair; the merged result is `"HIGH"` risk
while the log row says `"LOW"`. -/
theorem claim_C10_witness :
    (∀ g₁ g₂ : FinalAnalysis, g₁.drug_drug = g₂.drug_drug →
      logRisk g₁ = logRisk g₂) ∧
    (mergeResults ["metformin"] ["ckd"] ⟨[], [], []⟩
        ⟨[⟨"metformin", "ckd", true, 2, ""⟩], []⟩ ⟨[], [], [], []⟩ [] []
        []).risk_summary.level = "HIGH" ∧
    logRisk (mergeResults ["metformin"] ["ckd"] ⟨[], [], []⟩
        ⟨[⟨"metformin", "ckd", true, 2, ""⟩], []⟩ ⟨[], [], [], []⟩ [] []
        []) = "LOW" ∧
    (∀ row ∈ (log_analysis true true ⟨[], []⟩ "session-1" ["metformin"] ["ckd"]
        (mergeResults ["metformin"] ["ckd"] ⟨[], [], []⟩
          ⟨[⟨"metformin", "ckd", true, 2, ""⟩], []⟩ ⟨[], [], [], []⟩ [] []
          [])).analysis_log,
      row ∈ (⟨[], []⟩ : CacheState).analysis_log ∨ row.risk_level = "LOW") :=
  claim_C10 ["metformin"] ["ckd"] ⟨[], [], []⟩
    ⟨[⟨"metformin", "ckd", true, 2, ""⟩], []⟩ ⟨[], [], [], []⟩ [] [] []
    ⟨[], []⟩ "session-1" ["metformin"] ["ckd"] (by decide) (by decide)
    (by decide)

/-- C9.  Resource handle isolation: `get_connection` returns a handle
stored privately under the calling thread; it never reads or writes
another thread's slot; under the pool invariant (all handles distinct and
below the allocation counter) the returned handle is never one stored for
another thread, so two concurrently running workers never share a live
handle; the handle is created lazily once per thread (a live probe means
the stored handle is reused and the pool is untouched); and a failed
liveness probe is absorbed — the same call returns a fresh handle
(the next allocation) instead of propagating the probe failure. -/
theorem claim_C9 (alive : Nat → Bool) (tid : Nat) (s : PoolState) (h : Nat)
    (s' : PoolState) (hinv : PoolInv s)
    (hrun : get_connection alive tid s = (h, s')) :
    s'.conns tid = some h ∧
    (∀ b, b ≠ tid → s'.conns b = s.conns b) ∧
    (∀ h₀, s.conns tid = some h₀ → alive h₀ = true → h = h₀ ∧ s' = s) ∧
    (∀ h₀, s.conns tid = some h₀ → alive h₀ = false → h = s.counter) ∧
    PoolInv s' ∧
    (∀ b hb, b ≠ tid → s'.conns b = some hb → hb ≠ h) := by
  have halloc : ∀ (hh : Nat) (ss : PoolState), allocConn tid s = (hh, ss) →
      ss.conns tid = some hh ∧
      (∀ b, b ≠ tid → ss.conns b = s.conns b) ∧
      hh = s.counter ∧ PoolInv ss ∧
      (∀ b hb, b ≠ tid → ss.conns b = some hb → hb ≠ hh) := by
    intro hh ss heq
    simp only [allocConn, Prod.mk.injEq] at heq
    obtain ⟨rfl, rfl⟩ := heq
    refine ⟨by simp, fun b hb => by simp [hb], rfl, ⟨?_, ?_⟩, ?_⟩
    · intro t ht hct
      show ht < s.counter + 1
      by_cases htid : t = tid
      · subst htid
        simp at hct
        omega
      · simp only [if_neg htid] at hct
        have := hinv.1 t ht hct
        omega
    · intro t₁ t₂ ht h1 h2
      by_cases h1t : t₁ = tid
      · by_cases h2t : t₂ = tid
        · rw [h1t, h2t]
        · subst h1t
          simp at h1
          simp only [if_neg h2t] at h2
          have := hinv.1 t₂ ht h2
          omega
      · by_cases h2t : t₂ = tid
        · subst h2t
          simp at h2
          simp only [if_neg h1t] at h1
          have := hinv.1 t₁ ht h1
          omega
        · simp only [if_neg h1t] at h1
          simp only [if_neg h2t] at h2
          exact hinv.2 t₁ t₂ ht h1 h2
    · intro b hb hbt hcb
      show hb ≠ s.counter
      simp only [if_neg hbt] at hcb
      have := hinv.1 b hb hcb
      omega
  unfold get_connection at hrun
  cases hc : s.conns tid with
  | none =>
    rw [hc] at hrun
    obtain ⟨hA, hB, hC, hD, hE⟩ := halloc h s' hrun
    exact ⟨hA, hB, fun h₀ habs => Option.noConfusion habs,
      fun h₀ habs => Option.noConfusion habs, hD, hE⟩
  | some h₀ =>
    rw [hc] at hrun
    change (if alive h₀ = true then (h₀, s) else allocConn tid s) = (h, s')
      at hrun
    cases halive : alive h₀ with
    | true =>
      rw [if_pos halive] at hrun
      obtain ⟨rfl, rfl⟩ := Prod.mk.injEq .. |>.mp hrun
      refine ⟨hc, fun b _ => rfl, ?_, ?_, hinv, ?_⟩
      · intro h₁ hh₁ _
        exact ⟨Option.some.inj hh₁, rfl⟩
      · intro h₁ hh₁ hal
        rw [← Option.some.inj hh₁, halive] at hal
        exact absurd hal (by simp)
      · intro b hb hbt hcb hEq
        subst hEq
        exact hbt (hinv.2 b tid hb hcb hc)
    | false =>
      rw [if_neg (by simp [halive])] at hrun
      obtain ⟨hA, hB, hC, hD, hE⟩ := halloc h s' hrun
      refine ⟨hA, hB, ?_, fun h₁ _ _ => hC, hD, hE⟩
      · intro h₁ hh₁ hal
        rw [← Option.some.inj hh₁, halive] at hal
        exact absurd hal (by simp)

/-- Witness for C9 at concrete inputs: a two-thread scenario where thread
3 already holds live handle 0, the counter is at 1, and thread 7 (no
handle yet) calls `get_connection`, receiving fresh handle 1 — distinct
from thread 3's handle. -/
theorem claim_C9_witness :
    (PoolState.conns
        ⟨2, fun t => if t = 7 then some 1 else if t = 3 then some 0 else none⟩
        7 = some 1) ∧
    (∀ b, b ≠ 7 →
      PoolState.conns
        ⟨2, fun t => if t = 7 then some 1 else if t = 3 then some 0 else none⟩
        b =
      PoolState.conns ⟨1, fun t => if t = 3 then some 0 else none⟩ b) ∧
    (∀ h₀, PoolState.conns ⟨1, fun t => if t = 3 then some 0 else none⟩ 7 =
        some h₀ → (fun _ => true) h₀ = true →
      1 = h₀ ∧
      (⟨2, fun t => if t = 7 then some 1 else if t = 3 then some 0 else none⟩ :
        PoolState) = ⟨1, fun t => if t = 3 then some 0 else none⟩) ∧
    (∀ h₀, PoolState.conns ⟨1, fun t => if t = 3 then some 0 else none⟩ 7 =
        some h₀ → (fun _ => true) h₀ = false →
      1 = PoolState.counter ⟨1, fun t => if t = 3 then some 0 else none⟩) ∧
    PoolInv
      ⟨2, fun t => if t = 7 then some 1 else if t = 3 then some 0 else none⟩ ∧
    (∀ b hb, b ≠ 7 →
      PoolState.conns
        ⟨2, fun t => if t = 7 then some 1 else if t = 3 then some 0 else none⟩
        b = some hb → hb ≠ 1) :=
  claim_C9 (fun _ => true) 7 ⟨1, fun t => if t = 3 then some 0 else none⟩ 1
    ⟨2, fun t => if t = 7 then some 1 else if t = 3 then some 0 else none⟩
    ⟨fun t ht hct => by
        show ht < 1
        by_cases h3 : t = 3
        · subst h3
          simp at hct
          omega
        · simp [h3] at hct,
      fun t₁ t₂ ht h1 h2 => by
        by_cases h13 : t₁ = 3
        · by_cases h23 : t₂ = 3
          · rw [h13, h23]
          · simp [h23] at h2
        · simp [h13] at h1⟩
    rfl

/-- Every element of an interleaving comes from one of the two sources. -/
theorem interleave_mem {α : Type} {l₁ l₂ l : List α} (h : Interleave l₁ l₂ l) :
    ∀ a ∈ l, a ∈ l₁ ∨ a ∈ l₂ := by
  induction h with
  | nil => intro a ha; exact absurd ha (by simp)
  | left b hI ih =>
    intro a ha
    rcases List.mem_cons.1 ha with rfl | ha
    · exact Or.inl (List.mem_cons_self _ _)
    · rcases ih a ha with hm | hm
      · exact Or.inl (List.mem_cons_of_mem _ hm)
      · exact Or.inr hm
  | right b hI ih =>
    intro a ha
    rcases List.mem_cons.1 ha with rfl | ha
    · exact Or.inr (List.mem_cons_self _ _)
    · rcases ih a ha with hm | hm
      · exact Or.inl hm
      · exact Or.inr (List.mem_cons_of_mem _ hm)

/-- Every element of the left source survives into the interleaving. -/
theorem interleave_mem_left {α : Type} {l₁ l₂ l : List α}
    (h : Interleave l₁ l₂ l) : ∀ a ∈ l₁, a ∈ l := by
  induction h with
  | nil => intro a ha; exact absurd ha (by simp)
  | left b hI ih =>
    intro a ha
    rcases List.mem_cons.1 ha with rfl | ha
    · exact List.mem_cons_self _ _
    · exact List.mem_cons_of_mem _ (ih a ha)
  | right b hI ih =>
    intro a ha
    exact List.mem_cons_of_mem _ (ih a ha)

/-- Every element of the right source survives into the interleaving. -/
theorem interleave_mem_right {α : Type} {l₁ l₂ l : List α}
    (h : Interleave l₁ l₂ l) : ∀ a ∈ l₂, a ∈ l := by
  induction h with
  | nil => intro a ha; exact absurd ha (by simp)
  | left b hI ih =>
    intro a ha
    exact List.mem_cons_of_mem _ (ih a ha)
  | right b hI ih =>
    intro a ha
    rcases List.mem_cons.1 ha with rfl | ha
    · exact List.mem_cons_self _ _
    · exact List.mem_cons_of_mem _ (ih a ha)

/-- All events of the safety worker's sequence belong to the safety role. -/
theorem safetySeq_role (xs : List Nat) : ∀ e ∈ safetySeq xs, e.role = Role.safety := by
  intro e he
  rcases List.mem_append.1 he with h | h
  · obtain ⟨k, _, rfl⟩ := List.mem_map.1 h
    rfl
  · rw [List.mem_singleton.1 h]
    rfl

/-- All events of the disease worker's sequence belong to the disease role. -/
theorem diseaseSeq_role (ys : List Nat) : ∀ e ∈ diseaseSeq ys, e.role = Role.disease := by
  intro e he
  rcases List.mem_append.1 he with h | h
  · obtain ⟨k, _, rfl⟩ := List.mem_map.1 h
    rfl
  · rw [List.mem_singleton.1 h]
    rfl

/-- C8.  Phase barrier: in every orchestration run — that is, for every
interleaving of the two Phase-1 workers' event sequences — both the safety
and the disease worker reach a terminal state somewhere in the trace (a
slow worker delays but never cancels its sibling), and every counseling
(Phase-2) event in the trace is strictly preceded by both Phase-1 terminal
events: no counseling operation starts before both Phase-1 workers have
reached a terminal state. -/
theorem claim_C8 (xs ys cs : List Nat) (t : List AgentEvent)
    (hI : Interleave (safetySeq xs) (diseaseSeq ys) t) :
    (AgentEvent.done .safety ∈ orchTrace t cs ∧
     AgentEvent.done .disease ∈ orchTrace t cs) ∧
    (∀ (i : Nat) (e : AgentEvent), (orchTrace t cs)[i]? = some e →
      e.role = Role.counseling →
      (∃ j, j < i ∧ (orchTrace t cs)[j]? = some (AgentEvent.done .safety)) ∧
      (∃ j, j < i ∧ (orchTrace t cs)[j]? = some (AgentEvent.done .disease))) := by
  have hts : AgentEvent.done .safety ∈ t :=
    interleave_mem_left hI _ (List.mem_append_right _ (List.mem_singleton.2 rfl))
  have htd : AgentEvent.done .disease ∈ t :=
    interleave_mem_right hI _ (List.mem_append_right _ (List.mem_singleton.2 rfl))
  constructor
  · exact ⟨List.mem_append_left _ hts, List.mem_append_left _ htd⟩
  · intro i e hie hrole
    have hit : t.length ≤ i := by
      by_contra hlt
      push_neg at hlt
      rw [orchTrace, List.getElem?_append_left hlt] at hie
      have hmem : e ∈ t := List.getElem?_mem hie
      rcases interleave_mem hI e hmem with hm | hm
      · rw [safetySeq_role xs e hm] at hrole
        exact Role.noConfusion hrole
      · rw [diseaseSeq_role ys e hm] at hrole
        exact Role.noConfusion hrole
    obtain ⟨js, hjs⟩ := List.mem_iff_getElem?.1 hts
    obtain ⟨jd, hjd⟩ := List.mem_iff_getElem?.1 htd
    have hjsl : js < t.length := (List.getElem?_eq_some.mp hjs).1
    have hjdl : jd < t.length := (List.getElem?_eq_some.mp hjd).1
    refine ⟨⟨js, lt_of_lt_of_le hjsl hit, ?_⟩, ⟨jd, lt_of_lt_of_le hjdl hit, ?_⟩⟩
    · rw [orchTrace, List.getElem?_append_left hjsl]
      exact hjs
    · rw [orchTrace, List.getElem?_append_left hjdl]
      exact hjd

/-- Witness for C8 at a concrete trace: one operation per worker, the two
Phase-1 workers' events genuinely overlapping (safety starts first,
disease finishes first). -/
theorem claim_C8_witness :
    (AgentEvent.done .safety ∈ orchTrace phase1TraceEx [0] ∧
     AgentEvent.done .disease ∈ orchTrace phase1TraceEx [0]) ∧
    (∀ (i : Nat) (e : AgentEvent), (orchTrace phase1TraceEx [0])[i]? = some e →
      e.role = Role.counseling →
      (∃ j, j < i ∧
        (orchTrace phase1TraceEx [0])[j]? = some (AgentEvent.done .safety)) ∧
      (∃ j, j < i ∧
        (orchTrace phase1TraceEx [0])[j]? = some (AgentEvent.done .disease))) :=
  claim_C8 [0] [0] [0] phase1TraceEx
    (Interleave.left _ (Interleave.right _ (Interleave.right _
      (Interleave.left _ Interleave.nil))))

/-- C1 counterexample.  The claim's per-identifier fallback fails on the
code: with scope `["A", "B"]`, a dosing collector holding an entry for
`"a"` only, and a counseling worker whose self-assembled dosing array
contains an entry for drug `B`, the merged dosing array contains no entry
for `B` at all — the worker's entry for `B` is dropped, not used as a
fallback, because the code falls back to the worker array only when the
collector is entirely empty. -/
theorem claim_C1_counterexample :
    (∀ p ∈ dosingCollA, p.1 ≠ "b") ∧
    (∃ e ∈ counselingWorkerB.dosing_recommendations, e.drug = "B") ∧
    (∀ e ∈ (mergeResults ["A", "B"] [] ⟨[], [], []⟩ ⟨[], []⟩ counselingWorkerB
        [] [] dosingCollA).dosing_recommendations, e.drug ≠ "B") := by
  decide

/-- C1 amended.  The merge prefers the Result Collector with whole-array
fallback, and only for the counseling/dosing arrays: (a) the
pair-interaction and entity-contraindication arrays are taken verbatim
from the Phase-1 workers (no collector is involved); (b) when a collector
dict is empty, the corresponding merged array is the worker's
self-assembled array verbatim; (c) when the collector has an entry for an
identifier of the original scope, that entry appears in the merged array —
in particular an entity absent from the worker's array but present in the
collector appears in the merged result; (d) when the collector is
non-empty, every entry of the merged array comes from the collector at
some scope identifier — an identifier the collector lacks is skipped, even
if the worker's array covers it. -/
theorem claim_C1_amended (meds dis : List String) (safety : SafetyResult)
    (disease : DiseaseResult) (counseling : CounselingResult)
    (drugColl condColl : Collector CounselEntry)
    (dosingColl : Collector DosingEntry) :
    (mergeResults meds dis safety disease counseling drugColl condColl
        dosingColl).drug_drug = safety.drug_drug ∧
    (mergeResults meds dis safety disease counseling drugColl condColl
        dosingColl).drug_disease = disease.drug_disease ∧
    (drugColl = [] →
      (mergeResults meds dis safety disease counseling drugColl condColl
        dosingColl).drug_counseling = counseling.drug_counseling) ∧
    (condColl = [] →
      (mergeResults meds dis safety disease counseling drugColl condColl
        dosingColl).condition_counseling = counseling.condition_counseling) ∧
    (dosingColl = [] →
      (mergeResults meds dis safety disease counseling drugColl condColl
        dosingColl).dosing_recommendations = counseling.dosing_recommendations) ∧
    (∀ d ∈ meds, ∀ v, collLookup drugColl (lowerStr d) = some v →
      v ∈ (mergeResults meds dis safety disease counseling drugColl condColl
        dosingColl).drug_counseling) ∧
    (∀ d ∈ dis, ∀ v, collLookup condColl (lowerStr d) = some v →
      v ∈ (mergeResults meds dis safety disease counseling drugColl condColl
        dosingColl).condition_counseling) ∧
    (∀ d ∈ meds, ∀ v, collLookup dosingColl (lowerStr d) = some v →
      v ∈ (mergeResults meds dis safety disease counseling drugColl condColl
        dosingColl).dosing_recommendations) ∧
    (dosingColl ≠ [] →
      ∀ e ∈ (mergeResults meds dis safety disease counseling drugColl condColl
        dosingColl).dosing_recommendations,
        ∃ d ∈ meds, collLookup dosingColl (lowerStr d) = some e) := by
  have hlook : ∀ (α : Type) (c : Collector α) (key : String) (v : α),
      collLookup c key = some v → collNonempty c = true := by
    intro α c key v hv
    cases c with
    | nil => simp [collLookup] at hv
    | cons a l => rfl
  refine ⟨rfl, rfl, ?_, ?_, ?_, ?_, ?_, ?_, ?_⟩
  · intro h
    subst h
    rfl
  · intro h
    subst h
    rfl
  · intro h
    subst h
    rfl
  · intro d hd v hv
    show v ∈ collectMerge drugColl meds counseling.drug_counseling
    unfold collectMerge
    rw [if_pos (hlook _ drugColl (lowerStr d) v hv)]
    exact List.mem_filterMap.2 ⟨d, hd, hv⟩
  · intro d hd v hv
    show v ∈ collectMerge condColl dis counseling.condition_counseling
    unfold collectMerge
    rw [if_pos (hlook _ condColl (lowerStr d) v hv)]
    exact List.mem_filterMap.2 ⟨d, hd, hv⟩
  · intro d hd v hv
    show v ∈ collectMerge dosingColl meds counseling.dosing_recommendations
    unfold collectMerge
    rw [if_pos (hlook _ dosingColl (lowerStr d) v hv)]
    exact List.mem_filterMap.2 ⟨d, hd, hv⟩
  · intro hne e he
    have hb : collNonempty dosingColl = true := by
      cases dosingColl with
      | nil => exact absurd rfl hne
      | cons a l => rfl
    replace he : e ∈ collectMerge dosingColl meds counseling.dosing_recommendations := he
    rw [collectMerge, if_pos hb] at he
    obtain ⟨d, hd, hdl⟩ := List.mem_filterMap.1 he
    exact ⟨d, hd, hdl⟩

/-- Witness for C1 (amended) at concrete inputs: scope `["A"]`, a dosing
collector holding the full entry for `"a"`, an empty worker dosing array —
the collected entry appears in the merged dosing array. -/
theorem claim_C1_witness :
    dosingEntryA ∈ (mergeResults ["A"] [] ⟨[], [], []⟩ ⟨[], []⟩
        ⟨[], [], [], []⟩ [] [] [("a", dosingEntryA)]).dosing_recommendations :=
  (claim_C1_amended ["A"] [] ⟨[], [], []⟩ ⟨[], []⟩ ⟨[], [], [], []⟩ [] []
      [("a", dosingEntryA)]).2.2.2.2.2.2.2.1 "A" (by decide) dosingEntryA
    (by decide)

/-- C2 divergence.  Evaluating the code at a worker-level infrastructure
failure: when `client.create_agent` raises for the safety worker
(`AgentRunOutcome.raiseAtCreate`), the exception propagates through
`_BaseAgent._run` (which has no `except` clause, only `finally`), through
`future.result()`, and out of `VabGenRxOrchestrator.analyze` — `analyze`
raises instead of degrading to an empty worker result.  The two further
conjuncts record the half of the claim the code does satisfy: a worker
that reaches a terminal *failed* status yields the empty dict, and with
all workers empty the returned result still carries every array (empty)
and a `"LOW"` risk level. -/
theorem claim_C2_divergence :
    analyze ["aspirin", "warfarin"] ["gout"]
        (AgentRunOutcome.raiseAtCreate "ServiceRequestError: create_agent failed")
        (AgentRunOutcome.terminal true none) (AgentRunOutcome.terminal true none)
        [] [] [] =
      Except.error "ServiceRequestError: create_agent failed" ∧
    (∀ meds dis : List String,
      analyze meds dis (AgentRunOutcome.terminal false none)
        (AgentRunOutcome.terminal false none)
        (AgentRunOutcome.terminal false none) [] [] [] =
      Except.ok (mergeResults meds dis emptySafety emptyDisease emptyCounseling
        [] [] [])) ∧
    (∀ meds dis : List String,
      mergeResults meds dis emptySafety emptyDisease emptyCounseling [] [] [] =
        { drug_drug := [], drug_disease := [], drug_food := [],
          drug_counseling := [], condition_counseling := [],
          dosing_recommendations := [],
          risk_summary := ⟨"LOW", 0, 0, 0, 0⟩ }) :=
  ⟨rfl, fun _ _ => rfl, fun _ _ => rfl⟩

end VabGenRx
